import Mathlib

/-!
Shallow embedding of the data-lake ingestion and storage layer of the
juniorz-deal-estate repository (src/data_domain/lake/fetchers.py and
src/data_domain/lake/storage.py), together with theorems settling the
frozen claims about it.

Effectful Python code is modelled as pure Lean functions that return an
`Except` result paired with an explicit trace of the externally visible
events (directory creation, HTTP requests, subprocess runs, file writes,
object-store calls).  Mock environments (HTTP oracles, subprocess exit
codes, injected backend failures) are explicit parameters.
-/

namespace DealEstate

/-! ## Tabular data model and the columnar (parquet) codec

`pandas.DataFrame.to_parquet(buffer, index=False)` / `pandas.read_parquet`
are library calls; they are modelled by a concrete lossless columnar codec
on the embedded dataframe type: column names and cell values are encoded
into a flat byte list and decoded back.  `index=False` means the index is
dropped, so the model carries columns only. -/

/-- A single cell of a dataframe column: an integer or a string value. -/
inductive Cell where
  | int : Int → Cell
  | str : String → Cell
deriving DecidableEq, Repr

/-- The embedded `pandas.DataFrame`: named columns, in order, each a list
of cells. -/
structure DataFrame where
  columns : List (String × List Cell)
deriving DecidableEq, Repr

/-- Encode a string as a length-prefixed list of character codes. -/
def encodeString (s : String) : List Nat :=
  s.length :: s.data.map Char.toNat

/-- Read back `n` characters from a byte list. -/
def readChars : Nat → List Nat → Option (List Char × List Nat)
  | 0, bs => some ([], bs)
  | _ + 1, [] => none
  | n + 1, b :: bs => (readChars n bs).map (fun p => (Char.ofNat b :: p.1, p.2))

/-- Decode a length-prefixed string. -/
def decodeString : List Nat → Option (String × List Nat)
  | [] => none
  | n :: bs => (readChars n bs).map (fun p => (String.mk p.1, p.2))

/-- Encode an integer as a sign marker followed by its absolute value. -/
def encodeInt (i : Int) : List Nat :=
  if i < 0 then [0, i.natAbs] else [1, i.natAbs]

/-- Decode an integer. -/
def decodeInt : List Nat → Option (Int × List Nat)
  | 0 :: m :: bs => some (-(m : Int), bs)
  | 1 :: m :: bs => some ((m : Int), bs)
  | _ => none

/-- Encode one cell, tagged by kind. -/
def encodeCell : Cell → List Nat
  | .int i => 0 :: encodeInt i
  | .str s => 1 :: encodeString s

/-- Decode one cell. -/
def decodeCell : List Nat → Option (Cell × List Nat)
  | 0 :: bs => (decodeInt bs).map (fun p => (Cell.int p.1, p.2))
  | 1 :: bs => (decodeString bs).map (fun p => (Cell.str p.1, p.2))
  | _ => none

/-- Encode a list of cells back to back. -/
def encodeCells : List Cell → List Nat
  | [] => []
  | c :: cs => encodeCell c ++ encodeCells cs

/-- Decode exactly `n` cells. -/
def decodeCells : Nat → List Nat → Option (List Cell × List Nat)
  | 0, bs => some ([], bs)
  | n + 1, bs =>
    (decodeCell bs).bind (fun p =>
      (decodeCells n p.2).map (fun q => (p.1 :: q.1, q.2)))

/-- Encode the columns: each is a name followed by a cell-count-prefixed
cell list. -/
def encodeColumns : List (String × List Cell) → List Nat
  | [] => []
  | (name, cells) :: rest =>
    encodeString name ++ (cells.length :: encodeCells cells) ++ encodeColumns rest

/-- Decode exactly `n` columns. -/
def decodeColumns : Nat → List Nat → Option (List (String × List Cell) × List Nat)
  | 0, bs => some ([], bs)
  | n + 1, bs =>
    (decodeString bs).bind (fun p =>
      match p.2 with
      | [] => none
      | k :: bs2 =>
        (decodeCells k bs2).bind (fun q =>
          (decodeColumns n q.2).map (fun r => ((p.1, q.1) :: r.1, r.2))))

/-- Model of `df.to_parquet(buffer, index=False)`: serialize the dataframe
to an in-memory byte buffer. -/
def to_parquet (df : DataFrame) : List Nat :=
  df.columns.length :: encodeColumns df.columns

/-- Model of `pandas.read_parquet(buffer)`: deserialize a byte buffer back
into a dataframe; `none` is a deserialization failure (invalid payload). -/
def read_parquet : List Nat → Option DataFrame
  | [] => none
  | n :: bs => (decodeColumns n bs).map (fun p => DataFrame.mk p.1)

theorem readChars_encode (l : List Char) (rest : List Nat) :
    readChars l.length (l.map Char.toNat ++ rest) = some (l, rest) := by
  induction l with
  | nil => simp [readChars]
  | cons c cs ih => simp [readChars, ih, Char.ofNat_toNat]

theorem decodeString_encode (s : String) (rest : List Nat) :
    decodeString (encodeString s ++ rest) = some (s, rest) := by
  cases s with
  | mk l => simp [encodeString, decodeString, String.length, readChars_encode]

theorem decodeInt_encode (i : Int) (rest : List Nat) :
    decodeInt (encodeInt i ++ rest) = some (i, rest) := by
  by_cases h : i < 0
  · simp only [encodeInt, if_pos h, List.cons_append, decodeInt]
    congr 1
    congr 1
    omega
  · simp only [encodeInt, if_neg h, List.cons_append, decodeInt]
    congr 1
    congr 1
    omega

theorem decodeCell_encode (c : Cell) (rest : List Nat) :
    decodeCell (encodeCell c ++ rest) = some (c, rest) := by
  cases c with
  | int i => simp [encodeCell, decodeCell, decodeInt_encode]
  | str s => simp [encodeCell, decodeCell, decodeString_encode]

theorem decodeCells_encode (cs : List Cell) (rest : List Nat) :
    decodeCells cs.length (encodeCells cs ++ rest) = some (cs, rest) := by
  induction cs generalizing rest with
  | nil => simp [encodeCells, decodeCells]
  | cons c cs ih =>
    simp [encodeCells, decodeCells, decodeCell_encode, ih, Option.bind]

theorem decodeColumns_encode (cols : List (String × List Cell)) (rest : List Nat) :
    decodeColumns cols.length (encodeColumns cols ++ rest) = some (cols, rest) := by
  induction cols generalizing rest with
  | nil => simp [encodeColumns, decodeColumns]
  | cons col cols ih =>
    obtain ⟨name, cells⟩ := col
    simp only [encodeColumns, List.length_cons, decodeColumns, List.append_assoc,
      List.cons_append, decodeString_encode, Option.bind_some]
    simp [decodeCells_encode, ih, Option.bind]

theorem read_to_parquet (df : DataFrame) :
    read_parquet (to_parquet df) = some df := by
  have h := decodeColumns_encode df.columns []
  simp only [List.append_nil] at h
  simp [to_parquet, read_parquet, h]

/-! ## Object Store Gateway (src/data_domain/lake/storage.py)

The MinIO client's backend is modelled as a state (existing buckets and a
bucket/key-indexed object map) plus an environment of injectable failures
(the existence check failing; the network read of a response failing).
Every backend call is recorded in an event trace. -/

/-- Configured bucket name (`config.MINIO_BUCKET`). -/
def MINIO_BUCKET : String := "data-lake"

/-- A backend (`minio.error.S3Error`-style) failure. -/
inductive S3Error where
  | connectivity : String → S3Error
  | noSuchKey : String → S3Error
deriving DecidableEq, Repr

/-- The state of the mock S3-compatible backend. -/
structure MinioState where
  buckets : List String
  objects : List (String × String × List Nat)
deriving DecidableEq, Repr

/-- Injectable backend failures: an error raised by the bucket-existence
check, and a failure of `response.read()` during `load_parquet`. -/
structure MinioEnv where
  bucketExistsError : Option S3Error
  readError : Bool
deriving DecidableEq, Repr

/-- A healthy backend: no injected failures. -/
def cleanEnv : MinioEnv := ⟨none, false⟩

/-- Externally visible events of the Object Store Gateway. -/
inductive StoreEvent where
  | bucketExists (bucket : String)
  | makeBucket (bucket : String)
  | serialize
  | putObject (bucket key : String) (length : Nat) (contentType : String)
  | getObject (bucket key : String)
  | respClose
  | respReleaseConn
deriving DecidableEq, Repr

/-- Model of `client.bucket_exists(bucket)`. -/
def bucket_exists (env : MinioEnv) (st : MinioState) (bucket : String) :
    Except S3Error Bool × List StoreEvent :=
  match env.bucketExistsError with
  | some e => (.error e, [.bucketExists bucket])
  | none => (.ok (st.buckets.contains bucket), [.bucketExists bucket])

/-- Model of `client.make_bucket(bucket)`. -/
def make_bucket (st : MinioState) (bucket : String) : MinioState × List StoreEvent :=
  ({ st with buckets := bucket :: st.buckets }, [.makeBucket bucket])

/-- `ensure_bucket_exists(client, bucket)`: check existence, create only if
missing. -/
def ensure_bucket_exists (env : MinioEnv) (st : MinioState) (bucket : String) :
    Except S3Error MinioState × List StoreEvent :=
  match bucket_exists env st bucket with
  | (.error e, ev) => (.error e, ev)
  | (.ok found, ev) =>
    if found then (.ok st, ev)
    else
      let r := make_bucket st bucket
      (.ok r.1, ev ++ r.2)

/-- Model of `client.put_object(bucket, key, buffer, ...)`: store the bytes
under (bucket, key), replacing any previous object there. -/
def putObj (st : MinioState) (bucket key : String) (data : List Nat) : MinioState :=
  { st with
    objects := (bucket, key, data) ::
      st.objects.filter (fun o => !(o.1 == bucket && o.2.1 == key)) }

/-- Model of `client.get_object(bucket, key)`: look the object up. -/
def getObj (st : MinioState) (bucket key : String) : Option (List Nat) :=
  (st.objects.find? (fun o => o.1 == bucket && o.2.1 == key)).map (fun o => o.2.2)

/-- `save_parquet(df, filename)`: ensure the bucket, serialize to an
in-memory buffer, put the buffer under the key with a generic binary
content type, return the key. -/
def save_parquet (env : MinioEnv) (st : MinioState) (df : DataFrame)
    (filename : String) :
    Except S3Error (String × MinioState) × List StoreEvent :=
  match ensure_bucket_exists env st MINIO_BUCKET with
  | (.error e, ev) => (.error e, ev)
  | (.ok st1, ev) =>
    let buffer := to_parquet df
    (.ok (filename, putObj st1 MINIO_BUCKET filename buffer),
     ev ++ [.serialize,
            .putObject MINIO_BUCKET filename buffer.length "application/octet-stream"])

/-- An error raised out of `load_parquet`. -/
inductive LoadError where
  | s3 : S3Error → LoadError
  | readFailed : LoadError
  | deserializeFailed : LoadError
deriving DecidableEq, Repr

/-- `load_parquet(filename)`: get the object, read its bytes, deserialize,
then close the response and release its connection, in source order (the
close/release pair runs only after a successful deserialization; there is
no `try`/`finally` in the source). -/
def load_parquet (env : MinioEnv) (st : MinioState) (filename : String) :
    Except LoadError DataFrame × List StoreEvent :=
  match getObj st MINIO_BUCKET filename with
  | none => (.error (.s3 (.noSuchKey filename)), [.getObject MINIO_BUCKET filename])
  | some data =>
    if env.readError then
      (.error .readFailed, [.getObject MINIO_BUCKET filename])
    else
      match read_parquet data with
      | none => (.error .deserializeFailed, [.getObject MINIO_BUCKET filename])
      | some df =>
        (.ok df, [.getObject MINIO_BUCKET filename, .respClose, .respReleaseConn])

/-- Count of connection-release events in a store trace. -/
def countRelease (evs : List StoreEvent) : Nat :=
  (evs.filter (fun e => e == .respReleaseConn)).length

/-- Count of response-close events in a store trace. -/
def countClose (evs : List StoreEvent) : Nat :=
  (evs.filter (fun e => e == .respClose)).length

/-- Count of create-bucket calls in a store trace. -/
def countMakeBucket (evs : List StoreEvent) : Nat :=
  (evs.filter (fun e => match e with | .makeBucket _ => true | _ => false)).length

/-- Whether an `Except` result is a success. -/
def exceptOk {ε α : Type} : Except ε α → Bool
  | .ok _ => true
  | .error _ => false

/-! ## Fetcher Registry (src/data_domain/lake/fetchers.py)

Each fetcher is a pure function of a mock environment — an HTTP oracle
`url → response` for the network-backed ones, an exit code and the set of
zip files the post-run glob finds for the Kaggle CLI-backed ones — and its
source parameters, returning the result (`Except`) and the ordered trace
of its side effects. -/

/-- Configured default data directory (`DATA_DIR`). -/
def DATA_DIR : String := "./data_raw"

/-- A mocked `requests` response: status code and body (both `r.text` and
`r.content` are modelled by the one `text` field). -/
structure HttpResponse where
  status : Nat
  text : String
deriving DecidableEq, Repr

/-- HTTP oracle: what `requests.get(url)` returns for each url. -/
def Http : Type := String → HttpResponse

/-- The error kinds a fetcher can raise. -/
inductive FetchError where
  | httpStatusError (status : Nat)
  | runtimeError (msg : String)
  | fileNotFound (msg : String)
  | calledProcessError (returncode : Int)
  | jsonDecodeError
deriving DecidableEq, Repr

/-- Externally visible events of a fetcher, in order. -/
inductive FetchEvent where
  | mkdirP (dir : String)
  | httpGet (url : String)
  | runProcess (cmd : List String)
  | writeFile (path : String) (body : String)
deriving DecidableEq, Repr

/-- Model of `requests.Response.raise_for_status()`: raises `HTTPError`
exactly for client-error (4xx) and server-error (5xx) status codes. -/
def raise_for_status (r : HttpResponse) : Except FetchError Unit :=
  if 400 ≤ r.status ∧ r.status < 600 then .error (.httpStatusError r.status)
  else .ok ()

/-- `dir / file` path join (`pathlib`'s `dest / name`). -/
def joinPath (dir file : String) : String := dir ++ "/" ++ file

/-- Split a character list on a separator, `str.split` style: separators
delimit (possibly empty) fields. -/
def splitListOn (sep : Char) : List Char → List (List Char)
  | [] => [[]]
  | c :: rest =>
    if c = sep then [] :: splitListOn sep rest
    else
      match splitListOn sep rest with
      | [] => [[c]]
      | h :: t => (c :: h) :: t

/-- Last `/`-separated segment of a url (`url.split("/")[-1]`). -/
def lastSegment (url : String) : String :=
  String.mk ((splitListOn '/' url.data).getLastD [])

/-- Drop characters up to and including the first occurrence of `marker`;
`none` when the marker does not occur. -/
def dropThroughMarker (marker : List Char) : List Char → Option (List Char)
  | [] => none
  | c :: rest =>
    if marker.isPrefixOf (c :: rest) then some (List.drop marker.length (c :: rest))
    else dropThroughMarker marker rest

/-- Take characters up to the first double quote. -/
def takeUntilQuote : List Char → List Char
  | [] => []
  | c :: rest => if c = '"' then [] else c :: takeUntilQuote rest

/-- Model of `r.json()["result"]["url"]` on the data.gov.il
`resource_show` response: the string value following the first
`"url": "` occurrence; `none` (a decode/key error) when absent. -/
def json_result_url (body : String) : Option String :=
  (dropThroughMarker ("\"url\": \"".data) body.data).map
    (fun l => String.mk (takeUntilQuote l))

/-- Environment of the Kaggle CLI-backed fetchers: the exit code of the
external `kaggle` tool and the `*.zip` file names the glob finds in the
destination directory after the tool completes. -/
structure KaggleEnv where
  exitCode : Int
  zipsInDest : List String
deriving DecidableEq, Repr

/-- `fetch_kaggle_dataset(dataset, dest)`. -/
def fetch_kaggle_dataset (env : KaggleEnv) (dataset : String)
    (dest : Option String) : Except FetchError String × List FetchEvent :=
  let d := dest.getD DATA_DIR
  let cmd := ["kaggle", "datasets", "download", "-d", dataset, "-p", d]
  if env.exitCode ≠ 0 then
    (.error (.calledProcessError env.exitCode), [.mkdirP d, .runProcess cmd])
  else
    match env.zipsInDest with
    | [] => (.error (.fileNotFound "No zip file found after Kaggle download."),
             [.mkdirP d, .runProcess cmd])
    | z :: _ => (.ok (joinPath d z), [.mkdirP d, .runProcess cmd])

/-- `fetch_kaggle_competition(competition, dest)`. -/
def fetch_kaggle_competition (env : KaggleEnv) (competition : String)
    (dest : Option String) : Except FetchError String × List FetchEvent :=
  let d := dest.getD DATA_DIR
  let cmd := ["kaggle", "competitions", "download", "-c", competition, "-p", d]
  if env.exitCode ≠ 0 then
    (.error (.calledProcessError env.exitCode), [.mkdirP d, .runProcess cmd])
  else
    match env.zipsInDest with
    | [] => (.error (.fileNotFound "No zip file found after Kaggle download."),
             [.mkdirP d, .runProcess cmd])
    | z :: _ => (.ok (joinPath d z), [.mkdirP d, .runProcess cmd])

/-- The url `fetch_nadlan_gov_transactions` requests for a year. -/
def nadlanUrl (year : Int) : String :=
  "https://data.gov.il/api/3/action/datastore_search?resource_id=da54c6e7-6c2c-4e7b-9eae-32f7e7fb1317&limit=100000&filters=\x7b\"year\":" ++ toString year ++ "\x7d"

/-- `fetch_nadlan_gov_transactions(year, dest)`. -/
def fetch_nadlan_gov_transactions (http : Http) (year : Int)
    (dest : Option String) : Except FetchError String × List FetchEvent :=
  let url := nadlanUrl year
  let d := dest.getD DATA_DIR
  let r := http url
  match raise_for_status r with
  | .error e => (.error e, [.mkdirP d, .httpGet url])
  | .ok _ =>
    let file_path := joinPath d ("nadlan_transactions_" ++ toString year ++ ".json")
    (.ok file_path, [.mkdirP d, .httpGet url, .writeFile file_path r.text])

/-- `fetch_nadlan_taxes_transactions(page, dest)`. -/
def fetch_nadlan_taxes_transactions (http : Http) (page : Int)
    (dest : Option String) : Except FetchError String × List FetchEvent :=
  let url := "https://nadlan.taxes.gov.il/some_endpoint?page=" ++ toString page
  let d := dest.getD DATA_DIR
  let r := http url
  match raise_for_status r with
  | .error e => (.error e, [.mkdirP d, .httpGet url])
  | .ok _ =>
    let file_path := joinPath d ("nadlan_taxes_page_" ++ toString page ++ ".html")
    (.ok file_path, [.mkdirP d, .httpGet url, .writeFile file_path r.text])

/-- The metadata url `fetch_datagov_resource` requests first. -/
def datagovInfoUrl (resource_id : String) : String :=
  "https://data.gov.il/api/3/action/resource_show?id=" ++ resource_id

/-- `fetch_datagov_resource(resource_id, dest)`: a metadata request, then
(only after it succeeds and parses) directory creation, the download
request and the file write.  The file name is the last segment of the url
taken from the metadata response. -/
def fetch_datagov_resource (http : Http) (resource_id : String)
    (dest : Option String) : Except FetchError String × List FetchEvent :=
  let info_url := datagovInfoUrl resource_id
  let r := http info_url
  match raise_for_status r with
  | .error e => (.error e, [.httpGet info_url])
  | .ok _ =>
    match json_result_url r.text with
    | none => (.error .jsonDecodeError, [.httpGet info_url])
    | some url =>
      let d := dest.getD DATA_DIR
      let r2 := http url
      match raise_for_status r2 with
      | .error e => (.error e, [.httpGet info_url, .mkdirP d, .httpGet url])
      | .ok _ =>
        let file_path := joinPath d (lastSegment url)
        (.ok file_path,
         [.httpGet info_url, .mkdirP d, .httpGet url, .writeFile file_path r2.text])

/-- The url `fetch_cbs_table` requests for a table id. -/
def cbsUrl (table_id : String) : String :=
  "https://www.cbs.gov.il/he/publications/doclib/" ++ table_id

/-- `fetch_cbs_table(table_id, dest)`: the file name is the last segment
of the url, i.e. the last segment of `table_id`. -/
def fetch_cbs_table (http : Http) (table_id : String)
    (dest : Option String) : Except FetchError String × List FetchEvent :=
  let url := cbsUrl table_id
  let d := dest.getD DATA_DIR
  let r := http url
  match raise_for_status r with
  | .error e => (.error e, [.mkdirP d, .httpGet url])
  | .ok _ =>
    let file_path := joinPath d (lastSegment url)
    (.ok file_path, [.mkdirP d, .httpGet url, .writeFile file_path r.text])

/-- `fetch_opentaba_plan(plan_id, dest)`. -/
def fetch_opentaba_plan (http : Http) (plan_id : String)
    (dest : Option String) : Except FetchError String × List FetchEvent :=
  let url := "https://opentaba-server.herokuapp.com/api/plans/" ++ plan_id
  let d := dest.getD DATA_DIR
  let r := http url
  match raise_for_status r with
  | .error e => (.error e, [.mkdirP d, .httpGet url])
  | .ok _ =>
    let file_path := joinPath d ("opentaba_plan_" ++ plan_id ++ ".json")
    (.ok file_path, [.mkdirP d, .httpGet url, .writeFile file_path r.text])

/-- `fetch_citizens4citizens_projects(dest)`: an undocumented endpoint; a
manual `status_code != 200` check raising `RuntimeError`, before any file
write. -/
def fetch_citizens4citizens_projects (http : Http)
    (dest : Option String) : Except FetchError String × List FetchEvent :=
  let url := "https://c4c.org.il/api/projects"
  let d := dest.getD DATA_DIR
  let r := http url
  if r.status ≠ 200 then
    (.error (.runtimeError "API endpoint not available or has changed."),
     [.mkdirP d, .httpGet url])
  else
    let file_path := joinPath d "c4c_projects.json"
    (.ok file_path, [.mkdirP d, .httpGet url, .writeFile file_path r.text])

/-- `fetch_askdata_housing_plans(dest)`: the second undocumented-endpoint
fetcher, same manual `status_code != 200` check. -/
def fetch_askdata_housing_plans (http : Http)
    (dest : Option String) : Except FetchError String × List FetchEvent :=
  let url := "https://askdata.co.il/api/plans?limit=1000"
  let d := dest.getD DATA_DIR
  let r := http url
  if r.status ≠ 200 then
    (.error (.runtimeError "API endpoint not available or has changed."),
     [.mkdirP d, .httpGet url])
  else
    let file_path := joinPath d "askdata_housing_plans.json"
    (.ok file_path, [.mkdirP d, .httpGet url, .writeFile file_path r.text])

/-- `fetch_hasadna_openpolice_crime(city, dest)`. -/
def fetch_hasadna_openpolice_crime (http : Http) (city : String)
    (dest : Option String) : Except FetchError String × List FetchEvent :=
  let url := "https://openpolice.hasadna.org.il/api/events/?city=" ++ city
  let d := dest.getD DATA_DIR
  let r := http url
  match raise_for_status r with
  | .error e => (.error e, [.mkdirP d, .httpGet url])
  | .ok _ =>
    let file_path := joinPath d ("hasadna_openpolice_" ++ city ++ ".json")
    (.ok file_path, [.mkdirP d, .httpGet url, .writeFile file_path r.text])

/-- `fetch_hasadna_openmunicipality_air(city_code, dest)`. -/
def fetch_hasadna_openmunicipality_air (http : Http) (city_code : Int)
    (dest : Option String) : Except FetchError String × List FetchEvent :=
  let url := "https://municipaldata.hasadna.org.il/api/air_quality/" ++ toString city_code
  let d := dest.getD DATA_DIR
  let r := http url
  match raise_for_status r with
  | .error e => (.error e, [.mkdirP d, .httpGet url])
  | .ok _ =>
    let file_path := joinPath d
      ("hasadna_openmunicipality_air_" ++ toString city_code ++ ".json")
    (.ok file_path, [.mkdirP d, .httpGet url, .writeFile file_path r.text])

/-- Count of HTTP requests in a fetch trace. -/
def countHttp (evs : List FetchEvent) : Nat :=
  (evs.filter (fun e => match e with | .httpGet _ => true | _ => false)).length

/-- Count of subprocess runs in a fetch trace. -/
def countProc (evs : List FetchEvent) : Nat :=
  (evs.filter (fun e => match e with | .runProcess _ => true | _ => false)).length

/-- Count of directory creations in a fetch trace. -/
def countMkdir (evs : List FetchEvent) : Nat :=
  (evs.filter (fun e => match e with | .mkdirP _ => true | _ => false)).length

/-- Whether a fetch trace writes any file. -/
def hasWrite (evs : List FetchEvent) : Bool :=
  evs.any (fun e => match e with | .writeFile _ _ => true | _ => false)

/-- Whether a fetch result is an `HTTPError` (from `raise_for_status`). -/
def isHttpStatusError (r : Except FetchError String) : Bool :=
  match r with
  | .error (.httpStatusError _) => true
  | _ => false

/-- If the fetch succeeded, its returned path is the given one. -/
def okImpliesPath (r : Except FetchError String) (p : String) : Bool :=
  match r with
  | .ok q => q == p
  | .error _ => true

/-- Constant HTTP oracle: every url answers with the same response. -/
def constHttp (s : Nat) (t : String) : Http := fun _ => ⟨s, t⟩

/-! ## Helper lemmas -/

theorem getObj_putObj (st : MinioState) (b k : String) (data : List Nat) :
    getObj (putObj st b k data) b k = some data := by
  unfold getObj putObj
  rw [List.find?_cons_of_pos]
  · rfl
  · simp

theorem string_affix_inj (a b p q : String) :
    a ++ p ++ b = a ++ q ++ b ↔ p = q := by
  constructor
  · intro h
    have h2 := congrArg String.data h
    simp only [String.data_append] at h2
    exact String.ext (List.append_cancel_left (List.append_cancel_right h2))
  · intro h
    rw [h]

theorem joinPath_template_inj (d pre suf p q : String) :
    joinPath d (pre ++ p ++ suf) = joinPath d (pre ++ q ++ suf) ↔ p = q := by
  constructor
  · intro h
    have h2 := congrArg String.data h
    simp only [joinPath, String.data_append, List.append_assoc] at h2
    exact String.ext (List.append_cancel_right (List.append_cancel_left
      (List.append_cancel_left (List.append_cancel_left h2))))
  · intro h
    rw [h]

/-! Injectivity of the decimal rendering used by the f-string filename
templates (`toString` on `Int`, built on `Nat.repr`). -/

theorem toDigitsCore_append (fuel : Nat) : ∀ (n : Nat) (acc : List Char),
    Nat.toDigitsCore 10 fuel n acc = Nat.toDigitsCore 10 fuel n [] ++ acc := by
  induction fuel with
  | zero => intro n acc; simp [Nat.toDigitsCore]
  | succ fuel ih =>
    intro n acc
    simp only [Nat.toDigitsCore]
    by_cases h : n / 10 = 0
    · simp [h]
    · rw [if_neg h, if_neg h, ih (n / 10) (Nat.digitChar (n % 10) :: acc),
        ih (n / 10) [Nat.digitChar (n % 10)]]
      simp

theorem toDigitsCore_fuel_eq (n : Nat) : ∀ fuel₁ fuel₂ : Nat, n < fuel₁ → n < fuel₂ →
    Nat.toDigitsCore 10 fuel₁ n [] = Nat.toDigitsCore 10 fuel₂ n [] := by
  induction n using Nat.strong_induction_on with
  | _ n ih =>
    intro fuel₁ fuel₂ h₁ h₂
    match fuel₁, fuel₂ with
    | f₁ + 1, f₂ + 1 =>
      simp only [Nat.toDigitsCore]
      by_cases h : n / 10 = 0
      · simp [h]
      · rw [if_neg h, if_neg h, toDigitsCore_append f₁ (n / 10),
          toDigitsCore_append f₂ (n / 10)]
        have hn : 0 < n := by omega
        have hlt : n / 10 < n := Nat.div_lt_self hn (by omega)
        rw [ih (n / 10) hlt f₁ f₂ (by omega) (by omega)]

theorem toDigitsCore_succ (fuel n : Nat) :
    Nat.toDigitsCore 10 (fuel + 1) n []
      = if n / 10 = 0 then [Nat.digitChar (n % 10)]
        else Nat.toDigitsCore 10 fuel (n / 10) [Nat.digitChar (n % 10)] := by
  simp only [Nat.toDigitsCore]

theorem toDigits_structure (n : Nat) :
    Nat.toDigits 10 n
      = (if n / 10 = 0 then [] else Nat.toDigits 10 (n / 10))
        ++ [Nat.digitChar (n % 10)] := by
  unfold Nat.toDigits
  rw [toDigitsCore_succ n n]
  by_cases h : n / 10 = 0
  · simp [h]
  · rw [if_neg h, if_neg h, toDigitsCore_append n (n / 10),
      toDigitsCore_fuel_eq (n / 10) n (n / 10 + 1) (by omega) (by omega)]

theorem digitChar_inj_lt (a b : Nat) (ha : a < 10) (hb : b < 10)
    (h : Nat.digitChar a = Nat.digitChar b) : a = b := by
  have key : ∀ x y : Fin 10, Nat.digitChar x.val = Nat.digitChar y.val → x = y := by decide
  exact congrArg Fin.val (key ⟨a, ha⟩ ⟨b, hb⟩ h)

theorem digitChar_ne_dash (a : Nat) (ha : a < 10) : Nat.digitChar a ≠ '-' := by
  have key : ∀ x : Fin 10, Nat.digitChar x.val ≠ '-' := by decide
  exact key ⟨a, ha⟩

theorem toDigits_ne_nil (n : Nat) : Nat.toDigits 10 n ≠ [] := by
  rw [toDigits_structure]
  simp

theorem toDigits_inj (m : Nat) : ∀ n, Nat.toDigits 10 m = Nat.toDigits 10 n → m = n := by
  induction m using Nat.strong_induction_on with
  | _ m ih =>
    intro n h
    rw [toDigits_structure m, toDigits_structure n] at h
    obtain ⟨h1, h2⟩ := List.append_inj' h rfl
    have hmod : m % 10 = n % 10 := by
      refine digitChar_inj_lt _ _ (Nat.mod_lt _ (by omega)) (Nat.mod_lt _ (by omega)) ?_
      simpa using h2
    by_cases hm : m / 10 = 0 <;> by_cases hn : n / 10 = 0
    · omega
    · rw [if_pos hm, if_neg hn] at h1
      exact absurd h1.symm (toDigits_ne_nil _)
    · rw [if_neg hm, if_pos hn] at h1
      exact absurd h1 (toDigits_ne_nil _)
    · rw [if_neg hm, if_neg hn] at h1
      have hdiv := ih (m / 10) (Nat.div_lt_self (by omega) (by omega)) (n / 10) h1
      omega

theorem nat_repr_inj (m n : Nat) (h : Nat.repr m = Nat.repr n) : m = n :=
  toDigits_inj m n (congrArg String.data h)

theorem dash_not_mem_toDigits (n : Nat) : ∀ c ∈ Nat.toDigits 10 n, c ≠ '-' := by
  induction n using Nat.strong_induction_on with
  | _ n ih =>
    intro c hc
    rw [toDigits_structure] at hc
    rcases List.mem_append.mp hc with h | h
    · by_cases hn : n / 10 = 0
      · rw [if_pos hn] at h
        simp at h
      · rw [if_neg hn] at h
        exact ih (n / 10) (Nat.div_lt_self (by omega) (by omega)) c h
    · simp only [List.mem_singleton] at h
      subst h
      exact digitChar_ne_dash _ (Nat.mod_lt _ (by omega))

theorem int_toString_inj (i j : Int) (h : toString i = toString j) : i = j := by
  cases i with
  | ofNat m =>
    cases j with
    | ofNat n => exact congrArg Int.ofNat (nat_repr_inj m n h)
    | negSucc n =>
      exfalso
      have h2 : Nat.toDigits 10 m = '-' :: Nat.toDigits 10 (n + 1) :=
        congrArg String.data h
      exact dash_not_mem_toDigits m '-' (h2 ▸ List.mem_cons_self _ _) rfl
  | negSucc m =>
    cases j with
    | ofNat n =>
      exfalso
      have h2 : '-' :: Nat.toDigits 10 (m + 1) = Nat.toDigits 10 n :=
        congrArg String.data h
      exact dash_not_mem_toDigits n '-' (h2 ▸ List.mem_cons_self _ _) rfl
    | negSucc n =>
      have h2 : '-' :: Nat.toDigits 10 (m + 1) = '-' :: Nat.toDigits 10 (n + 1) :=
        congrArg String.data h
      have h3 := toDigits_inj (m + 1) (n + 1) (List.tail_eq_of_cons_eq h2)
      exact congrArg Int.negSucc (by omega : m = n)

/-! ## Claims about the Object Store Gateway -/

/-- Claim C1, counterexample: `load_parquet` does not release the
connection on every exit path.  On a backend where the stored object is an
invalid parquet payload, deserialization raises and the trace contains no
close and no release event, refuting the claim that the response is closed
and its connection released exactly once on every exit path. -/
theorem C1_counterexample :
    (load_parquet cleanEnv ⟨[MINIO_BUCKET], [(MINIO_BUCKET, "bad.parquet", [])]⟩
        "bad.parquet").1 = .error .deserializeFailed
    ∧ countRelease (load_parquet cleanEnv
        ⟨[MINIO_BUCKET], [(MINIO_BUCKET, "bad.parquet", [])]⟩ "bad.parquet").2 = 0
    ∧ countClose (load_parquet cleanEnv
        ⟨[MINIO_BUCKET], [(MINIO_BUCKET, "bad.parquet", [])]⟩ "bad.parquet").2 = 0 := by
  refine ⟨rfl, rfl, rfl⟩

/-- Claim C1, amended: `load_parquet` closes the response and releases its
connection exactly once on the success path, and not at all when the get,
the read, or the deserialization fails (the exception propagates with no
release): the number of close events equals the number of release events,
and both equal one exactly when the call succeeds. -/
theorem C1_release_only_on_success (env : MinioEnv) (st : MinioState) (key : String) :
    countClose (load_parquet env st key).2 = countRelease (load_parquet env st key).2
    ∧ countRelease (load_parquet env st key).2
        = (if exceptOk (load_parquet env st key).1 then 1 else 0) := by
  unfold load_parquet
  cases getObj st MINIO_BUCKET key with
  | none => simp [countClose, countRelease, exceptOk]
  | some data =>
    by_cases hr : env.readError
    · simp [hr, countClose, countRelease, exceptOk]
    · cases hp : read_parquet data with
      | none => simp [hr, hp, countClose, countRelease, exceptOk]
      | some df => simp [hr, hp, countClose, countRelease, exceptOk]

/-- Claim C4: `save_parquet` followed by `load_parquet` on the same key
against the same backend returns a dataframe equal to the original — the
same columns in the same order with the same cell values. -/
theorem C4_save_load_round_trip (st : MinioState) (df : DataFrame) (key : String) :
    ∃ st2, (save_parquet cleanEnv st df key).1 = .ok (key, st2)
      ∧ (load_parquet cleanEnv st2 key).1 = .ok df := by
  unfold save_parquet ensure_bucket_exists bucket_exists cleanEnv
  by_cases h : MINIO_BUCKET ∈ st.buckets
  · refine ⟨putObj st MINIO_BUCKET key (to_parquet df), ?_, ?_⟩
    · simp [h]
    · simp [load_parquet, getObj_putObj, read_to_parquet, cleanEnv]
  · refine ⟨putObj (make_bucket st MINIO_BUCKET).1 MINIO_BUCKET key (to_parquet df), ?_, ?_⟩
    · simp [h]
    · simp [load_parquet, getObj_putObj, read_to_parquet, cleanEnv]

/-- Claim C5: `ensure_bucket_exists` is idempotent.  It queries existence
first; when the bucket is present it makes no create call and does not
raise; when absent it creates it, and a second call in sequence finds it,
so two calls on a fresh backend make exactly one create-bucket call; a
failure of the existence check itself propagates the backend error
unchanged. -/
theorem C5_ensure_bucket_idempotent :
    (∀ st : MinioState, ∀ b, st.buckets.contains b = true →
        ensure_bucket_exists cleanEnv st b = (.ok st, [.bucketExists b]))
    ∧ (∀ st : MinioState, ∀ b, st.buckets.contains b = false →
        ∃ st1, ensure_bucket_exists cleanEnv st b
            = (.ok st1, [.bucketExists b, .makeBucket b])
          ∧ ensure_bucket_exists cleanEnv st1 b = (.ok st1, [.bucketExists b])
          ∧ countMakeBucket ((ensure_bucket_exists cleanEnv st b).2
              ++ (ensure_bucket_exists cleanEnv st1 b).2) = 1)
    ∧ (∀ env : MinioEnv, ∀ st : MinioState, ∀ b e,
        env.bucketExistsError = some e →
        (ensure_bucket_exists env st b).1 = .error e) := by
  refine ⟨?_, ?_, ?_⟩
  · intro st b h
    have h2 : b ∈ st.buckets := by simpa using h
    simp [ensure_bucket_exists, bucket_exists, cleanEnv, h2]
  · intro st b h
    have h2 : b ∉ st.buckets := by simpa using h
    refine ⟨⟨b :: st.buckets, st.objects⟩, ?_, ?_, ?_⟩
    · simp [ensure_bucket_exists, bucket_exists, cleanEnv, h2, make_bucket]
    · simp [ensure_bucket_exists, bucket_exists, cleanEnv]
    · simp [ensure_bucket_exists, bucket_exists, cleanEnv, h2, make_bucket,
        countMakeBucket]
  · intro env st b e h
    simp [ensure_bucket_exists, bucket_exists, h]

/-- Claim C5 witness: concrete instances — a state holding the configured
bucket is returned unchanged with no create call, and an injected failure
of the existence check propagates unchanged. -/
theorem C5_witness :
    ensure_bucket_exists cleanEnv ⟨["data-lake"], []⟩ "data-lake"
      = (.ok ⟨["data-lake"], []⟩, [.bucketExists "data-lake"])
    ∧ (ensure_bucket_exists ⟨some (.connectivity "backend down"), false⟩
        ⟨[], []⟩ "data-lake").1 = .error (.connectivity "backend down") :=
  ⟨C5_ensure_bucket_idempotent.1 ⟨["data-lake"], []⟩ "data-lake" (by decide),
   C5_ensure_bucket_idempotent.2.2 ⟨some (.connectivity "backend down"), false⟩
     ⟨[], []⟩ "data-lake" (.connectivity "backend down") rfl⟩

/-- Claim C6, counterexample: `save_parquet` does not serialize first.  At
a concrete input its trace begins with the bucket-existence check (and the
create call), and serialization happens only afterwards, refuting the
claimed order "first serializes, then ensures the bucket". -/
theorem C6_counterexample :
    (save_parquet cleanEnv ⟨[], []⟩ ⟨[("a", [Cell.int 1])]⟩ "k").2
      = [.bucketExists MINIO_BUCKET, .makeBucket MINIO_BUCKET, .serialize,
         .putObject MINIO_BUCKET "k" 7 "application/octet-stream"]
    ∧ (save_parquet cleanEnv ⟨[], []⟩ ⟨[("a", [Cell.int 1])]⟩ "k").2.head?
        ≠ some .serialize := by
  refine ⟨rfl, by decide⟩

/-- Claim C6, amended: `save_parquet` first ensures the target bucket
exists, then serializes the dataframe to an in-memory buffer, then writes
the buffer under the key with the generic binary content type
`application/octet-stream` and the buffer's byte length, and returns the
key unchanged. -/
theorem C6_save_steps (st : MinioState) (df : DataFrame) (key : String) :
    ∃ st1, (ensure_bucket_exists cleanEnv st MINIO_BUCKET).1 = .ok st1
      ∧ save_parquet cleanEnv st df key
          = (.ok (key, putObj st1 MINIO_BUCKET key (to_parquet df)),
             (ensure_bucket_exists cleanEnv st MINIO_BUCKET).2
               ++ [.serialize,
                   .putObject MINIO_BUCKET key (to_parquet df).length
                     "application/octet-stream"]) := by
  unfold save_parquet ensure_bucket_exists bucket_exists cleanEnv
  by_cases h : MINIO_BUCKET ∈ st.buckets
  · exact ⟨st, by simp [h], by simp [h]⟩
  · exact ⟨(make_bucket st MINIO_BUCKET).1, by simp [h], by simp [h]⟩

/-! ## Claims about the Fetcher Registry -/

/-- A 200-status oracle whose body is a valid `resource_show` payload. -/
def datagovOracle : Http :=
  fun _ => ⟨200, "\x7b\"result\": \x7b\"url\": \"https://host/files/f.csv\"\x7d\x7d"⟩

/-- Claim C2, counterexample: `fetch_datagov_resource` issues two outbound
network requests in a single successful invocation (the metadata request
and the download request), refuting the claim that no fetcher ever issues
two or more requests per call. -/
theorem C2_counterexample :
    countHttp (fetch_datagov_resource datagovOracle "rid" none).2 = 2
    ∧ (fetch_datagov_resource datagovOracle "rid" none).1
        = .ok "./data_raw/f.csv" := by
  refine ⟨rfl, rfl⟩

/-- Claim C2, amended: every fetcher issues exactly one outbound network
request (or, for the Kaggle CLI-backed two, exactly one subprocess run and
no network request) per invocation, except `fetch_datagov_resource`, which
issues two requests when its metadata request succeeds and parses, and one
otherwise. -/
theorem C2_request_counts :
    (∀ http year dest, countHttp (fetch_nadlan_gov_transactions http year dest).2 = 1
        ∧ countProc (fetch_nadlan_gov_transactions http year dest).2 = 0)
    ∧ (∀ http page dest, countHttp (fetch_nadlan_taxes_transactions http page dest).2 = 1)
    ∧ (∀ http tid dest, countHttp (fetch_cbs_table http tid dest).2 = 1)
    ∧ (∀ http pid dest, countHttp (fetch_opentaba_plan http pid dest).2 = 1)
    ∧ (∀ http dest, countHttp (fetch_citizens4citizens_projects http dest).2 = 1)
    ∧ (∀ http dest, countHttp (fetch_askdata_housing_plans http dest).2 = 1)
    ∧ (∀ http city dest, countHttp (fetch_hasadna_openpolice_crime http city dest).2 = 1)
    ∧ (∀ http cc dest, countHttp (fetch_hasadna_openmunicipality_air http cc dest).2 = 1)
    ∧ (∀ env ds dest, countProc (fetch_kaggle_dataset env ds dest).2 = 1
        ∧ countHttp (fetch_kaggle_dataset env ds dest).2 = 0)
    ∧ (∀ env c dest, countProc (fetch_kaggle_competition env c dest).2 = 1
        ∧ countHttp (fetch_kaggle_competition env c dest).2 = 0)
    ∧ (∀ http rid dest, countHttp (fetch_datagov_resource http rid dest).2
        = if exceptOk (raise_for_status (http (datagovInfoUrl rid)))
            && (json_result_url (http (datagovInfoUrl rid)).text).isSome
          then 2 else 1) := by
  refine ⟨?_, ?_, ?_, ?_, ?_, ?_, ?_, ?_, ?_, ?_, ?_⟩
  · intro http year dest
    simp only [fetch_nadlan_gov_transactions]
    split <;> simp [countHttp, countProc]
  · intro http page dest
    simp only [fetch_nadlan_taxes_transactions]
    split <;> simp [countHttp]
  · intro http tid dest
    simp only [fetch_cbs_table]
    split <;> simp [countHttp]
  · intro http pid dest
    simp only [fetch_opentaba_plan]
    split <;> simp [countHttp]
  · intro http dest
    simp only [fetch_citizens4citizens_projects]
    split <;> simp [countHttp]
  · intro http dest
    simp only [fetch_askdata_housing_plans]
    split <;> simp [countHttp]
  · intro http city dest
    simp only [fetch_hasadna_openpolice_crime]
    split <;> simp [countHttp]
  · intro http cc dest
    simp only [fetch_hasadna_openmunicipality_air]
    split <;> simp [countHttp]
  · intro env ds dest
    simp only [fetch_kaggle_dataset]
    split
    · simp [countHttp, countProc]
    · split <;> simp [countHttp, countProc]
  · intro env c dest
    simp only [fetch_kaggle_competition]
    split
    · simp [countHttp, countProc]
    · split <;> simp [countHttp, countProc]
  · intro http rid dest
    simp only [fetch_datagov_resource]
    cases h1 : raise_for_status (http (datagovInfoUrl rid)) with
    | error e => simp [h1, countHttp, exceptOk]
    | ok u =>
      cases h2 : json_result_url (http (datagovInfoUrl rid)).text with
      | none => simp [h1, h2, countHttp, exceptOk]
      | some url =>
        cases h3 : raise_for_status (http url) with
        | error e => simp [h1, h2, h3, countHttp, exceptOk]
        | ok u2 => simp [h1, h2, h3, countHttp, exceptOk]

/-- Claim C3, counterexample: `fetch_cbs_table` names its output by the
last path segment of `table_id`, so two invocations with different
parameters produce the same output file path, refuting injectivity. -/
theorem C3_counterexample :
    (fetch_cbs_table (constHttp 200 "body") "shnaton/2023/06_01.xlsx" none).1
      = .ok "./data_raw/06_01.xlsx"
    ∧ (fetch_cbs_table (constHttp 200 "body") "shnaton/2022/06_01.xlsx" none).1
      = .ok "./data_raw/06_01.xlsx"
    ∧ ("shnaton/2023/06_01.xlsx" : String) ≠ "shnaton/2022/06_01.xlsx" := by
  refine ⟨rfl, rfl, by decide⟩

/-- Claim C3, amended: a successful fetch returns the fetcher's
deterministic path.  For the five template-named fetchers (nadlan year,
taxes page, opentaba plan id, hasadna city, hasadna city code) the
parameters are embedded in the name and the naming is injective in the
parameters; the two undocumented-endpoint fetchers use fixed names.
`fetch_cbs_table` uses only the last path segment of `table_id`, so
distinct table ids sharing a last segment collide; and
`fetch_datagov_resource`'s and the Kaggle fetchers' names come from the
metadata response and from the archive the external tool left behind,
not from their parameters. -/
theorem C3_naming :
    (∀ http year dest, okImpliesPath (fetch_nadlan_gov_transactions http year dest).1
        (joinPath (dest.getD DATA_DIR)
          ("nadlan_transactions_" ++ toString year ++ ".json")) = true)
    ∧ (∀ http page dest, okImpliesPath (fetch_nadlan_taxes_transactions http page dest).1
        (joinPath (dest.getD DATA_DIR)
          ("nadlan_taxes_page_" ++ toString page ++ ".html")) = true)
    ∧ (∀ http pid dest, okImpliesPath (fetch_opentaba_plan http pid dest).1
        (joinPath (dest.getD DATA_DIR) ("opentaba_plan_" ++ pid ++ ".json")) = true)
    ∧ (∀ http city dest, okImpliesPath (fetch_hasadna_openpolice_crime http city dest).1
        (joinPath (dest.getD DATA_DIR) ("hasadna_openpolice_" ++ city ++ ".json")) = true)
    ∧ (∀ http cc dest, okImpliesPath
        (fetch_hasadna_openmunicipality_air http cc dest).1
        (joinPath (dest.getD DATA_DIR)
          ("hasadna_openmunicipality_air_" ++ toString cc ++ ".json")) = true)
    ∧ (∀ http dest, okImpliesPath (fetch_citizens4citizens_projects http dest).1
        (joinPath (dest.getD DATA_DIR) "c4c_projects.json") = true)
    ∧ (∀ http dest, okImpliesPath (fetch_askdata_housing_plans http dest).1
        (joinPath (dest.getD DATA_DIR) "askdata_housing_plans.json") = true)
    ∧ (∀ http tid dest, okImpliesPath (fetch_cbs_table http tid dest).1
        (joinPath (dest.getD DATA_DIR) (lastSegment (cbsUrl tid))) = true)
    ∧ (∀ http rid dest, okImpliesPath (fetch_datagov_resource http rid dest).1
        (joinPath (dest.getD DATA_DIR)
          (lastSegment ((json_result_url (http (datagovInfoUrl rid)).text).getD "")))
        = true)
    ∧ (∀ env ds dest, okImpliesPath (fetch_kaggle_dataset env ds dest).1
        (joinPath (dest.getD DATA_DIR) (env.zipsInDest.headD "")) = true)
    ∧ (∀ env c dest, okImpliesPath (fetch_kaggle_competition env c dest).1
        (joinPath (dest.getD DATA_DIR) (env.zipsInDest.headD "")) = true)
    ∧ (∀ d : String, ∀ y₁ y₂ : Int,
        joinPath d ("nadlan_transactions_" ++ toString y₁ ++ ".json")
          = joinPath d ("nadlan_transactions_" ++ toString y₂ ++ ".json") ↔ y₁ = y₂)
    ∧ (∀ d : String, ∀ p₁ p₂ : Int,
        joinPath d ("nadlan_taxes_page_" ++ toString p₁ ++ ".html")
          = joinPath d ("nadlan_taxes_page_" ++ toString p₂ ++ ".html") ↔ p₁ = p₂)
    ∧ (∀ d p q : String, joinPath d ("opentaba_plan_" ++ p ++ ".json")
          = joinPath d ("opentaba_plan_" ++ q ++ ".json") ↔ p = q)
    ∧ (∀ d p q : String, joinPath d ("hasadna_openpolice_" ++ p ++ ".json")
          = joinPath d ("hasadna_openpolice_" ++ q ++ ".json") ↔ p = q)
    ∧ (∀ d : String, ∀ c₁ c₂ : Int,
        joinPath d ("hasadna_openmunicipality_air_" ++ toString c₁ ++ ".json")
          = joinPath d ("hasadna_openmunicipality_air_" ++ toString c₂ ++ ".json")
          ↔ c₁ = c₂) := by
  refine ⟨?_, ?_, ?_, ?_, ?_, ?_, ?_, ?_, ?_, ?_, ?_, ?_, ?_, ?_, ?_, ?_⟩
  · intro http year dest
    simp only [fetch_nadlan_gov_transactions]
    split <;> simp [okImpliesPath]
  · intro http page dest
    simp only [fetch_nadlan_taxes_transactions]
    split <;> simp [okImpliesPath]
  · intro http pid dest
    simp only [fetch_opentaba_plan]
    split <;> simp [okImpliesPath]
  · intro http city dest
    simp only [fetch_hasadna_openpolice_crime]
    split <;> simp [okImpliesPath]
  · intro http cc dest
    simp only [fetch_hasadna_openmunicipality_air]
    split <;> simp [okImpliesPath]
  · intro http dest
    simp only [fetch_citizens4citizens_projects]
    split <;> simp [okImpliesPath]
  · intro http dest
    simp only [fetch_askdata_housing_plans]
    split <;> simp [okImpliesPath]
  · intro http tid dest
    simp only [fetch_cbs_table]
    split <;> simp [okImpliesPath]
  · intro http rid dest
    simp only [fetch_datagov_resource]
    cases h1 : raise_for_status (http (datagovInfoUrl rid)) with
    | error e => simp [okImpliesPath]
    | ok u =>
      cases h2 : json_result_url (http (datagovInfoUrl rid)).text with
      | none => simp [h1, h2, okImpliesPath]
      | some url =>
        cases h3 : raise_for_status (http url) with
        | error e => simp [h1, h2, h3, okImpliesPath]
        | ok u2 => simp [h1, h2, h3, okImpliesPath]
  · intro env ds dest
    simp only [fetch_kaggle_dataset]
    by_cases h : env.exitCode ≠ 0
    · simp [h, okImpliesPath]
    · cases hz : env.zipsInDest with
      | nil => simp [h, hz, okImpliesPath]
      | cons z zs => simp [h, hz, okImpliesPath]
  · intro env c dest
    simp only [fetch_kaggle_competition]
    by_cases h : env.exitCode ≠ 0
    · simp [h, okImpliesPath]
    · cases hz : env.zipsInDest with
      | nil => simp [h, hz, okImpliesPath]
      | cons z zs => simp [h, hz, okImpliesPath]
  · intro d y₁ y₂
    rw [joinPath_template_inj]
    exact ⟨int_toString_inj y₁ y₂, fun h => by rw [h]⟩
  · intro d p₁ p₂
    rw [joinPath_template_inj]
    exact ⟨int_toString_inj p₁ p₂, fun h => by rw [h]⟩
  · intro d p q
    exact joinPath_template_inj d "opentaba_plan_" ".json" p q
  · intro d p q
    exact joinPath_template_inj d "hasadna_openpolice_" ".json" p q
  · intro d c₁ c₂
    rw [joinPath_template_inj]
    exact ⟨int_toString_inj c₁ c₂, fun h => by rw [h]⟩

/-- Claim C3 witness: the amended naming rule applied at concrete inputs —
a successful opentaba fetch lands at its template path, and the nadlan
naming equation holds between equal years. -/
theorem C3_naming_witness :
    okImpliesPath (fetch_opentaba_plan (constHttp 200 "b") "100-0136956" none).1
      (joinPath (Option.getD none DATA_DIR)
        ("opentaba_plan_" ++ "100-0136956" ++ ".json")) = true
    ∧ joinPath "./tmp" ("nadlan_transactions_" ++ toString (2023 : Int) ++ ".json")
        = joinPath "./tmp" ("nadlan_transactions_" ++ toString (2023 : Int) ++ ".json") :=
  ⟨C3_naming.2.2.1 (constHttp 200 "b") "100-0136956" none,
   (C3_naming.2.2.2.2.2.2.2.2.2.2.2.1 "./tmp" 2023 2023).mpr rfl⟩

/-- Claim C7, counterexample: a non-2xx status is not always raised.  With
a mocked 304 response, `fetch_nadlan_gov_transactions` does not raise: it
writes the file and returns the path, refuting "every non-success status
is raised, not only 4xx/5xx statuses". -/
theorem C7_counterexample :
    (fetch_nadlan_gov_transactions (constHttp 304 "not modified") 2023 none).1
      = .ok "./data_raw/nadlan_transactions_2023.json"
    ∧ hasWrite (fetch_nadlan_gov_transactions (constHttp 304 "not modified") 2023 none).2
        = true
    ∧ ¬(200 ≤ 304 ∧ 304 < 300) := by
  refine ⟨rfl, rfl, by decide⟩

/-- Claim C7, amended: for every network-backed fetcher outside the Kaggle
and undocumented-endpoint ones, and a mocked transport with status `s`,
the call fails with the HTTP-status error kind exactly when `s` is a 4xx
or 5xx status (`raise_for_status` semantics), immediately; other non-2xx
statuses (1xx/3xx) are not raised. -/
theorem C7_raise_iff (s : Nat) (t : String) :
    (∀ year dest, isHttpStatusError
        (fetch_nadlan_gov_transactions (constHttp s t) year dest).1
        = decide (400 ≤ s ∧ s < 600))
    ∧ (∀ page dest, isHttpStatusError
        (fetch_nadlan_taxes_transactions (constHttp s t) page dest).1
        = decide (400 ≤ s ∧ s < 600))
    ∧ (∀ tid dest, isHttpStatusError (fetch_cbs_table (constHttp s t) tid dest).1
        = decide (400 ≤ s ∧ s < 600))
    ∧ (∀ pid dest, isHttpStatusError (fetch_opentaba_plan (constHttp s t) pid dest).1
        = decide (400 ≤ s ∧ s < 600))
    ∧ (∀ city dest, isHttpStatusError
        (fetch_hasadna_openpolice_crime (constHttp s t) city dest).1
        = decide (400 ≤ s ∧ s < 600))
    ∧ (∀ cc dest, isHttpStatusError
        (fetch_hasadna_openmunicipality_air (constHttp s t) cc dest).1
        = decide (400 ≤ s ∧ s < 600))
    ∧ (∀ rid dest, isHttpStatusError (fetch_datagov_resource (constHttp s t) rid dest).1
        = decide (400 ≤ s ∧ s < 600)) := by
  by_cases h : 400 ≤ s ∧ s < 600
  · refine ⟨?_, ?_, ?_, ?_, ?_, ?_, ?_⟩ <;> intro a b <;>
      simp [fetch_nadlan_gov_transactions, fetch_nadlan_taxes_transactions,
        fetch_cbs_table, fetch_opentaba_plan, fetch_hasadna_openpolice_crime,
        fetch_hasadna_openmunicipality_air, fetch_datagov_resource,
        constHttp, raise_for_status, h, isHttpStatusError]
  · refine ⟨?_, ?_, ?_, ?_, ?_, ?_, ?_⟩ <;> intro a b
    · simp [fetch_nadlan_gov_transactions, constHttp, raise_for_status, h,
        isHttpStatusError]
    · simp [fetch_nadlan_taxes_transactions, constHttp, raise_for_status, h,
        isHttpStatusError]
    · simp [fetch_cbs_table, constHttp, raise_for_status, h, isHttpStatusError]
    · simp [fetch_opentaba_plan, constHttp, raise_for_status, h, isHttpStatusError]
    · simp [fetch_hasadna_openpolice_crime, constHttp, raise_for_status, h,
        isHttpStatusError]
    · simp [fetch_hasadna_openmunicipality_air, constHttp, raise_for_status, h,
        isHttpStatusError]
    · cases hj : json_result_url t <;>
        simp [fetch_datagov_resource, constHttp, raise_for_status, h, hj,
          isHttpStatusError]

/-- Claim C8: for the two undocumented-endpoint fetchers, any status other
than exactly 200 (redirects included) raises the generic runtime error —
an error kind distinct from the HTTP-status kind — and no file is written;
with status exactly 200 the file is written at the fixed path. -/
theorem C8_undocumented_non200 (s : Nat) (t : String) (dest : Option String) :
    (if s = 200 then
        (fetch_citizens4citizens_projects (constHttp s t) dest).1
          = .ok (joinPath (dest.getD DATA_DIR) "c4c_projects.json")
      else
        (fetch_citizens4citizens_projects (constHttp s t) dest).1
          = .error (.runtimeError "API endpoint not available or has changed.")
        ∧ hasWrite (fetch_citizens4citizens_projects (constHttp s t) dest).2 = false)
    ∧ (if s = 200 then
        (fetch_askdata_housing_plans (constHttp s t) dest).1
          = .ok (joinPath (dest.getD DATA_DIR) "askdata_housing_plans.json")
      else
        (fetch_askdata_housing_plans (constHttp s t) dest).1
          = .error (.runtimeError "API endpoint not available or has changed.")
        ∧ hasWrite (fetch_askdata_housing_plans (constHttp s t) dest).2 = false) := by
  by_cases h : s = 200
  · rw [if_pos h, if_pos h]
    constructor
    · simp [fetch_citizens4citizens_projects, constHttp, h]
    · simp [fetch_askdata_housing_plans, constHttp, h]
  · rw [if_neg h, if_neg h]
    constructor
    · constructor
      · simp [fetch_citizens4citizens_projects, constHttp, h]
      · simp [fetch_citizens4citizens_projects, constHttp, h, hasWrite]
    · constructor
      · simp [fetch_askdata_housing_plans, constHttp, h]
      · simp [fetch_askdata_housing_plans, constHttp, h, hasWrite]

/-- Claim C8 witness: at status 301 (a redirect) both undocumented-endpoint
fetchers raise the generic runtime error and write nothing; at status 200
the askdata fetcher writes its fixed path. -/
theorem C8_witness :
    (fetch_citizens4citizens_projects (constHttp 301 "moved") none).1
      = .error (.runtimeError "API endpoint not available or has changed.")
    ∧ hasWrite (fetch_citizens4citizens_projects (constHttp 301 "moved") none).2 = false
    ∧ (fetch_askdata_housing_plans (constHttp 200 "ok") none).1
        = .ok (joinPath (Option.getD none DATA_DIR) "askdata_housing_plans.json") := by
  have h1 := C8_undocumented_non200 301 "moved" none
  have h2 := C8_undocumented_non200 200 "ok" none
  rw [if_neg (by decide), if_neg (by decide)] at h1
  rw [if_pos rfl, if_pos rfl] at h2
  exact ⟨h1.1.1, h1.1.2, h2.2⟩

/-- Claim C9: for the two Kaggle CLI-backed fetchers, a non-zero exit of
the external tool propagates as the tool's failure; on exit 0 the call
fails with the file-not-found (missing-artifact) error exactly when the
destination directory holds no zip archive afterwards, and otherwise
returns the path of a zip archive in that directory. -/
theorem C9_kaggle (env : KaggleEnv) (ds comp : String) (dest : Option String) :
    (env.exitCode ≠ 0 →
        (fetch_kaggle_dataset env ds dest).1
          = .error (.calledProcessError env.exitCode)
        ∧ (fetch_kaggle_competition env comp dest).1
          = .error (.calledProcessError env.exitCode))
    ∧ (env.exitCode = 0 → env.zipsInDest = [] →
        (fetch_kaggle_dataset env ds dest).1
          = .error (.fileNotFound "No zip file found after Kaggle download.")
        ∧ (fetch_kaggle_competition env comp dest).1
          = .error (.fileNotFound "No zip file found after Kaggle download."))
    ∧ (∀ z zs, env.exitCode = 0 → env.zipsInDest = z :: zs →
        (fetch_kaggle_dataset env ds dest).1 = .ok (joinPath (dest.getD DATA_DIR) z)
        ∧ (fetch_kaggle_competition env comp dest).1
          = .ok (joinPath (dest.getD DATA_DIR) z)) := by
  refine ⟨?_, ?_, ?_⟩
  · intro h
    constructor
    · simp [fetch_kaggle_dataset, h]
    · simp [fetch_kaggle_competition, h]
  · intro h hz
    constructor
    · simp [fetch_kaggle_dataset, h, hz]
    · simp [fetch_kaggle_competition, h, hz]
  · intro z zs h hz
    constructor
    · simp [fetch_kaggle_dataset, h, hz]
    · simp [fetch_kaggle_competition, h, hz]

/-- Claim C9 witness: concrete runs — exit code 2 propagates, exit 0 with
an empty destination glob raises the missing-artifact error, and exit 0
with a zip present returns that zip's path. -/
theorem C9_kaggle_witness :
    ((fetch_kaggle_dataset ⟨2, []⟩ "zillow/zecon" none).1
        = .error (.calledProcessError 2)
      ∧ (fetch_kaggle_competition ⟨2, []⟩ "zillow-prize-1" none).1
        = .error (.calledProcessError 2))
    ∧ ((fetch_kaggle_dataset ⟨0, []⟩ "zillow/zecon" none).1
        = .error (.fileNotFound "No zip file found after Kaggle download.")
      ∧ (fetch_kaggle_competition ⟨0, []⟩ "zillow-prize-1" none).1
        = .error (.fileNotFound "No zip file found after Kaggle download."))
    ∧ ((fetch_kaggle_dataset ⟨0, ["zecon.zip"]⟩ "zillow/zecon" none).1
        = .ok (joinPath (Option.getD none DATA_DIR) "zecon.zip")
      ∧ (fetch_kaggle_competition ⟨0, ["zecon.zip"]⟩ "zillow-prize-1" none).1
        = .ok (joinPath (Option.getD none DATA_DIR) "zecon.zip")) :=
  ⟨(C9_kaggle ⟨2, []⟩ "zillow/zecon" "zillow-prize-1" none).1 (by decide),
   (C9_kaggle ⟨0, []⟩ "zillow/zecon" "zillow-prize-1" none).2.1 rfl rfl,
   (C9_kaggle ⟨0, ["zecon.zip"]⟩ "zillow/zecon" "zillow-prize-1" none).2.2
     "zecon.zip" [] rfl rfl⟩

/-- Claim C10, counterexample: `fetch_datagov_resource` issues its
metadata request before creating the destination directory; when that
request fails with a non-success status, the call raises with no directory
created (and no file written), refuting "for every fetcher the destination
directory is created before the network request" and its consequent. -/
theorem C10_counterexample :
    (fetch_datagov_resource (constHttp 404 "not found") "rid" none).2
      = [.httpGet (datagovInfoUrl "rid")]
    ∧ countMkdir (fetch_datagov_resource (constHttp 404 "not found") "rid" none).2 = 0
    ∧ isHttpStatusError (fetch_datagov_resource (constHttp 404 "not found") "rid" none).1
        = true := by
  refine ⟨rfl, rfl, rfl⟩

/-- Claim C10, amended: every fetcher except `fetch_datagov_resource`
creates the destination directory as its first side effect, before its
network request or subprocess, so a status failure leaves the directory
created and no artifact written (a file is written iff the call succeeds);
`fetch_datagov_resource` issues its metadata request first and creates the
directory only once that request has succeeded and parsed. -/
theorem C10_mkdir_order :
    (∀ http year dest, (fetch_nadlan_gov_transactions http year dest).2.head?
        = some (.mkdirP (dest.getD DATA_DIR)))
    ∧ (∀ http page dest, (fetch_nadlan_taxes_transactions http page dest).2.head?
        = some (.mkdirP (dest.getD DATA_DIR)))
    ∧ (∀ http tid dest, (fetch_cbs_table http tid dest).2.head?
        = some (.mkdirP (dest.getD DATA_DIR)))
    ∧ (∀ http pid dest, (fetch_opentaba_plan http pid dest).2.head?
        = some (.mkdirP (dest.getD DATA_DIR)))
    ∧ (∀ http dest, (fetch_citizens4citizens_projects http dest).2.head?
        = some (.mkdirP (dest.getD DATA_DIR)))
    ∧ (∀ http dest, (fetch_askdata_housing_plans http dest).2.head?
        = some (.mkdirP (dest.getD DATA_DIR)))
    ∧ (∀ http city dest, (fetch_hasadna_openpolice_crime http city dest).2.head?
        = some (.mkdirP (dest.getD DATA_DIR)))
    ∧ (∀ http cc dest, (fetch_hasadna_openmunicipality_air http cc dest).2.head?
        = some (.mkdirP (dest.getD DATA_DIR)))
    ∧ (∀ env ds dest, (fetch_kaggle_dataset env ds dest).2.head?
        = some (.mkdirP (dest.getD DATA_DIR)))
    ∧ (∀ env c dest, (fetch_kaggle_competition env c dest).2.head?
        = some (.mkdirP (dest.getD DATA_DIR)))
    ∧ (∀ http rid dest, (fetch_datagov_resource http rid dest).2.head?
        = some (.httpGet (datagovInfoUrl rid)))
    ∧ (∀ http year dest,
        hasWrite (fetch_nadlan_gov_transactions http year dest).2
          = exceptOk (fetch_nadlan_gov_transactions http year dest).1
        ∧ countMkdir (fetch_nadlan_gov_transactions http year dest).2 = 1)
    ∧ (∀ http tid dest,
        hasWrite (fetch_cbs_table http tid dest).2
          = exceptOk (fetch_cbs_table http tid dest).1
        ∧ countMkdir (fetch_cbs_table http tid dest).2 = 1)
    ∧ (∀ http dest,
        hasWrite (fetch_citizens4citizens_projects http dest).2
          = exceptOk (fetch_citizens4citizens_projects http dest).1
        ∧ countMkdir (fetch_citizens4citizens_projects http dest).2 = 1)
    ∧ (∀ http rid dest,
        hasWrite (fetch_datagov_resource http rid dest).2
          = exceptOk (fetch_datagov_resource http rid dest).1
        ∧ countMkdir (fetch_datagov_resource http rid dest).2
          = if exceptOk (raise_for_status (http (datagovInfoUrl rid)))
              && (json_result_url (http (datagovInfoUrl rid)).text).isSome
            then 1 else 0) := by
  refine ⟨?_, ?_, ?_, ?_, ?_, ?_, ?_, ?_, ?_, ?_, ?_, ?_, ?_, ?_, ?_⟩
  · intro http year dest
    simp only [fetch_nadlan_gov_transactions]
    split <;> rfl
  · intro http page dest
    simp only [fetch_nadlan_taxes_transactions]
    split <;> rfl
  · intro http tid dest
    simp only [fetch_cbs_table]
    split <;> rfl
  · intro http pid dest
    simp only [fetch_opentaba_plan]
    split <;> rfl
  · intro http dest
    simp only [fetch_citizens4citizens_projects]
    split <;> rfl
  · intro http dest
    simp only [fetch_askdata_housing_plans]
    split <;> rfl
  · intro http city dest
    simp only [fetch_hasadna_openpolice_crime]
    split <;> rfl
  · intro http cc dest
    simp only [fetch_hasadna_openmunicipality_air]
    split <;> rfl
  · intro env ds dest
    simp only [fetch_kaggle_dataset]
    split
    · rfl
    · split <;> rfl
  · intro env c dest
    simp only [fetch_kaggle_competition]
    split
    · rfl
    · split <;> rfl
  · intro http rid dest
    simp only [fetch_datagov_resource]
    cases h1 : raise_for_status (http (datagovInfoUrl rid)) with
    | error e => simp [h1]
    | ok u =>
      cases h2 : json_result_url (http (datagovInfoUrl rid)).text with
      | none => simp [h1, h2]
      | some url =>
        cases h3 : raise_for_status (http url) with
        | error e => simp [h1, h2, h3]
        | ok u2 => simp [h1, h2, h3]
  · intro http year dest
    simp only [fetch_nadlan_gov_transactions]
    split <;> simp [hasWrite, countMkdir, exceptOk]
  · intro http tid dest
    simp only [fetch_cbs_table]
    split <;> simp [hasWrite, countMkdir, exceptOk]
  · intro http dest
    simp only [fetch_citizens4citizens_projects]
    split <;> simp [hasWrite, countMkdir, exceptOk]
  · intro http rid dest
    simp only [fetch_datagov_resource]
    cases h1 : raise_for_status (http (datagovInfoUrl rid)) with
    | error e => simp [h1, hasWrite, countMkdir, exceptOk]
    | ok u =>
      cases h2 : json_result_url (http (datagovInfoUrl rid)).text with
      | none => simp [h1, h2, hasWrite, countMkdir, exceptOk]
      | some url =>
        cases h3 : raise_for_status (http url) with
        | error e => simp [h1, h2, h3, hasWrite, countMkdir, exceptOk]
        | ok u2 => simp [h1, h2, h3, hasWrite, countMkdir, exceptOk]

end DealEstate
